import Mathlib

/-!
Shallow embedding of src/createproject.py (kicad-scripts).

Paths are modelled as lists of path segments rooted at an abstract current
directory; os.path.join of a base with a single relative segment appends the
segment. The filesystem is the pair of the set of existing directories and the
set of existing files, both as lists of paths. Stateful Python code becomes
explicit state passing: a step maps a state to a new state together with an
optional escaping exception. Print statements have no filesystem effect and
are not modelled. External effects (os.makedirs failing with a permission
error, the git executable being absent, the exit status each spawned git
command would report) are supplied by an explicit environment, the World.
-/

/-- A filesystem path, as the list of its segments from the filesystem root. -/
abbrev FPath := List String

/-- Model of os.path.join for a base path and one relative segment, which is
the only form of join the source uses. -/
def os_path_join (a : FPath) (b : String) : FPath := a ++ [b]

/-- The filesystem: which directories and which regular files exist. -/
structure FS where
  dirs : List FPath
  files : List FPath
deriving Repr, DecidableEq

/-- The mutable program state: the filesystem, the working directory of the
process, the has_started_creating_dirs attribute of the live ProjectCreator
instance, and traces of the os.makedirs calls that created a directory and of
the subprocess.run invocations, in order. -/
structure PState where
  fs : FS
  cwd : FPath
  has_started_creating_dirs : Bool
  mkdirLog : List FPath
  procLog : List (List String)
deriving Repr, DecidableEq

/-- The exceptions the modelled code can raise. -/
inductive PyErr where
  /-- ProjectAlreadyExistsError, carrying the conflicting path. -/
  | projectAlreadyExists (p : FPath)
  /-- FileExistsError from os.makedirs on an existing path. -/
  | fileExists (p : FPath)
  /-- FileNotFoundError: a missing file, directory or executable. -/
  | fileNotFound (p : FPath)
  /-- OSError from os.makedirs: permission denied, disk full, and the like. -/
  | osError (p : FPath)
deriving Repr, DecidableEq

/-- A step of the program: state in, state out plus an optional escaping
exception; on an exception the returned state is the state at the raise. -/
def Step := PState → PState × Option PyErr

/-- Sequencing of two statements: the second runs only when the first did not
raise; an exception propagates with the state it was raised in. -/
def stepSeq (a b : Step) : Step := fun s =>
  if (a s).2.isSome then a s else b (a s).1

/-- Sequencing of a list of statements, such as the body of a for loop over a
static list. -/
def stepList : List Step → Step
  | [] => fun s => (s, none)
  | a :: rest => stepSeq a (stepList rest)

/-- The external environment of one run. -/
structure World where
  /-- Whether the git executable can be spawned at all; when false,
  subprocess.run raises FileNotFoundError. -/
  gitAvailable : Bool
  /-- The exit status subprocess.run observes for each spawned argv; a
  non-zero status is a failed command, which subprocess.run without a check
  flag reports only through the returned CompletedProcess. -/
  cmdExit : List String → Nat
  /-- Paths at which os.makedirs raises OSError (permissions, disk full). -/
  mkdirDenied : List FPath

/-- Model of os.makedirs: raises FileExistsError when the target already
exists, OSError on an injected fault, and otherwise records the directory. In
every call the source makes, the parent of the target already exists, so
creation of missing ancestors is not modelled. -/
def os_makedirs (w : World) (p : FPath) : Step := fun s =>
  if p ∈ s.fs.dirs ∨ p ∈ s.fs.files then (s, some (.fileExists p))
  else if p ∈ w.mkdirDenied then (s, some (.osError p))
  else ({ s with fs := { s.fs with dirs := p :: s.fs.dirs },
                 mkdirLog := s.mkdirLog ++ [p] }, none)

/-- The final segment of a path, as os.path.basename on the paths in use. -/
def basename (p : FPath) : String := p.getLastD ""

/-- Model of shutil.copy: raises FileNotFoundError when the source file is
absent; when the destination is an existing directory the file is copied into
it under its own basename, otherwise to the destination path itself. -/
def shutil_copy (src dst : FPath) : Step := fun s =>
  if src ∈ s.fs.files then
    let target := if dst ∈ s.fs.dirs then dst ++ [basename src] else dst
    ({ s with fs := { s.fs with files := target :: s.fs.files } }, none)
  else (s, some (.fileNotFound src))

/-- Model of open(path, "a").close(): creates the file when its directory
exists, and raises FileNotFoundError otherwise. -/
def py_open_touch (p : FPath) : Step := fun s =>
  if p.dropLast ∈ s.fs.dirs then
    ({ s with fs := { s.fs with files := p :: s.fs.files } }, none)
  else (s, some (.fileNotFound p))

/-- Model of subprocess.run(args) and of subprocess.run(args,
capture_output=True): raises FileNotFoundError when the executable is absent;
otherwise the command runs, its exit status is delivered in the returned
CompletedProcess — which every call site of the source discards — and the
invocation is recorded. -/
def subprocess_run (w : World) (args : List String) : Step := fun s =>
  if w.gitAvailable then
    let _returncode := w.cmdExit args
    ({ s with procLog := s.procLog ++ [args] }, none)
  else (s, some (.fileNotFound ["git"]))

/-- Model of shutil.rmtree: removes the root and everything below it. -/
def shutil_rmtree (fs : FS) (root : FPath) : FS :=
  { dirs := fs.dirs.filter (fun p => !(decide (root <+: p))),
    files := fs.files.filter (fun p => !(decide (root <+: p))) }

/-- The cd context manager of the source: saves the working directory, changes
into new_path, runs the body, and changes back on exit even when the body
raises; the exception itself still propagates. os.chdir raises
FileNotFoundError on a missing directory, in which case the body never runs
and the working directory is unchanged. os.path.expanduser is the identity on
the absolute paths in use and is not modelled. -/
def with_cd (new_path : FPath) (body : Step) : Step := fun s =>
  if new_path ∈ s.fs.dirs then
    let r := body { s with cwd := new_path }
    ({ r.1 with cwd := s.cwd }, r.2)
  else (s, some (.fileNotFound new_path))

/-- The static git_modules list of the source: pairs of relative path and
repository url. -/
def git_modules : List (String × String) :=
  [("hardware/includes/CrumpPrints.pretty",
    "https://github.com/tylercrumpton/CrumpPrints.pretty.git"),
   ("hardware/includes/CrumpSchemes",
    "https://github.com/tylercrumpton/CrumpSchemes.git"),
   ("hardware/includes/CrumpPrintSymbols.pretty",
    "https://github.com/tylercrumpton/CrumpPrintSymbols.pretty.git")]

/-- The argv of one git submodule add invocation: url before path, exactly as
the source builds it. -/
def submoduleAddArgs (m : String × String) : List String :=
  ["git", "submodule", "add", m.2, m.1]

/-- The immutable path attributes a ProjectCreator instance computes in its
initializer. -/
structure ProjectCreator where
  project_name : String
  current_path : FPath
  project_path : FPath
  hardware_path : FPath
  include_path : FPath
  project_specific_path : FPath
  template_path : FPath
deriving Repr, DecidableEq

/-- The initializer of ProjectCreator: derives every path from the current
directory, the project name, and the directory holding the script; it also
sets has_started_creating_dirs to false, which the initial PState records. -/
def ProjectCreator.init (project_name : String) (cwd script_dir : FPath) :
    ProjectCreator :=
  let current_path := cwd
  let project_path := os_path_join current_path project_name
  let hardware_path := os_path_join project_path "hardware"
  let include_path := os_path_join hardware_path "includes"
  let project_specific_path := os_path_join include_path "ProjectSpecific.pretty"
  let template_path :=
    os_path_join (os_path_join script_dir "templates") "createproject"
  { project_name, current_path, project_path, hardware_path, include_path,
    project_specific_path, template_path }

/-- ProjectCreator.setup_dirs, lines 100 to 113 of the source: reject an
existing project directory, then create the four directories. Line 107 of the
source reads self.has_started_creating_dirs as a bare expression statement:
the attribute value is evaluated and discarded, and nothing is assigned. -/
def ProjectCreator.setup_dirs (c : ProjectCreator) (w : World) : Step := fun s =>
  if c.project_path ∈ s.fs.dirs then
    (s, some (.projectAlreadyExists c.project_path))
  else
    let _ := s.has_started_creating_dirs
    (stepSeq (os_makedirs w c.project_path)
      (stepSeq (os_makedirs w c.hardware_path)
        (stepSeq (os_makedirs w c.include_path)
          (os_makedirs w c.project_specific_path)))) s

/-- ProjectCreator.copy_project_template, lines 115 to 141 of the source: the
ignore file into the project root under the name .gitignore, the three design
files into the hardware directory renamed after the project, and the two
library tables into the hardware directory, whose basename-preserving copy the
directory-destination branch of shutil_copy performs. -/
def ProjectCreator.copy_project_template (c : ProjectCreator) : Step :=
  stepSeq (shutil_copy (os_path_join c.template_path "DOTgitignore")
            (os_path_join c.project_path ".gitignore"))
  (stepSeq (shutil_copy (os_path_join c.template_path "projectname.kicad_pcb")
            (os_path_join c.hardware_path (c.project_name ++ ".kicad_pcb")))
  (stepSeq (shutil_copy (os_path_join c.template_path "projectname.pro")
            (os_path_join c.hardware_path (c.project_name ++ ".pro")))
  (stepSeq (shutil_copy (os_path_join c.template_path "projectname.sch")
            (os_path_join c.hardware_path (c.project_name ++ ".sch")))
  (stepSeq (shutil_copy (os_path_join c.template_path "fp-lib-table")
            c.hardware_path)
    (shutil_copy (os_path_join c.template_path "sym-lib-table")
            c.hardware_path)))))

/-- ProjectCreator.setup_git, lines 83 to 98 of the source: touch the .gitkeep
marker, then inside the project directory run git init, one git submodule add
per entry of git_modules, and git add. -/
def ProjectCreator.setup_git (c : ProjectCreator) (w : World) : Step :=
  stepSeq (py_open_touch (os_path_join c.project_specific_path ".gitkeep"))
    (with_cd c.project_path
      (stepSeq (subprocess_run w ["git", "init"])
        (stepSeq
          (stepList (git_modules.map (fun m => subprocess_run w (submoduleAddArgs m))))
          (subprocess_run w ["git", "add", "."]))))

/-- ProjectCreator enter and the three ordered phases of the with block in
main, lines 151 to 154 of the source. -/
def creationBody (c : ProjectCreator) (w : World) : Step :=
  stepSeq (c.setup_dirs w) (stepSeq c.copy_project_template (c.setup_git w))

/-- ProjectCreator exit handler, lines 77 to 81 of the source: when an
exception escaped the block and has_started_creating_dirs holds, recursively
delete the project directory; the handler returns True in every case, which
makes the with statement suppress the exception. -/
def ProjectCreator.exitHandler (c : ProjectCreator) (raised : Bool)
    (s : PState) : PState × Bool :=
  if raised && s.has_started_creating_dirs then
    ({ s with fs := shutil_rmtree s.fs c.project_path }, true)
  else (s, true)

/-- The outcome of one full run of the with block. -/
structure RunResult where
  /-- The state after the exit handler ran. -/
  final : PState
  /-- The exception that escaped the three phases, before the exit handler. -/
  bodyErr : Option PyErr
  /-- The exception the caller of the with block observes; none when the exit
  handler suppressed it. -/
  surfaced : Option PyErr
deriving Repr, DecidableEq

/-- One full run of the with block of main on a given environment and initial
filesystem: construct the creator, run the three phases, run the exit
handler. -/
def runCreation (project_name : String) (cwd script_dir : FPath) (w : World)
    (fs0 : FS) : RunResult :=
  let c := ProjectCreator.init project_name cwd script_dir
  let s0 : PState := { fs := fs0, cwd := cwd, has_started_creating_dirs := false,
                       mkdirLog := [], procLog := [] }
  let r := creationBody c w s0
  let x := c.exitHandler r.2.isSome r.1
  { final := x.1, bodyErr := r.2, surfaced := if x.2 then none else r.2 }

/-- The exit code of the process: main returns normally, hence exit code 0,
exactly when no exception reaches the caller of the with block. -/
def mainExitCode (project_name : String) (cwd script_dir : FPath) (w : World)
    (fs0 : FS) : Nat :=
  match (runCreation project_name cwd script_dir w fs0).surfaced with
  | none => 0
  | some _ => 1

/-- Two filesystems where the first is contained in the second: nothing of the
first has been removed. -/
def FS.incl (a b : FS) : Prop :=
  (∀ p, p ∈ a.dirs → p ∈ b.dirs) ∧ (∀ p, p ∈ a.files → p ∈ b.files)

/-- A step that neither writes the has_started_creating_dirs attribute nor
removes anything from the filesystem. -/
def Tame (f : Step) : Prop :=
  ∀ s, ((f s).1.has_started_creating_dirs = s.has_started_creating_dirs) ∧
    FS.incl s.fs (f s).1.fs

/-- The creation sequence up to and including copy_project_template, run from
the initial state of the with block: the part of the run after which the claim
about template naming is stated. -/
def runThroughTemplate (project_name : String) (cwd script_dir : FPath)
    (w : World) (fs0 : FS) : PState × Option PyErr :=
  stepSeq ((ProjectCreator.init project_name cwd script_dir).setup_dirs w)
    (ProjectCreator.init project_name cwd script_dir).copy_project_template
    { fs := fs0, cwd := cwd, has_started_creating_dirs := false,
      mkdirLog := [], procLog := [] }

/-- The normal-scenario precondition on one run: the project root and the
three planned directories below it do not yet exist in any form, the four file
destinations of copy_project_template are not directories, os.makedirs has no
injected fault, and all six template resources are present. -/
abbrev CleanRun (project_name : String) (cwd script_dir : FPath) (w : World)
    (fs0 : FS) : Prop :=
  (cwd ++ [project_name] ∉ fs0.dirs ∧ cwd ++ [project_name] ∉ fs0.files) ∧
  (cwd ++ [project_name, "hardware"] ∉ fs0.dirs ∧
   cwd ++ [project_name, "hardware"] ∉ fs0.files) ∧
  (cwd ++ [project_name, "hardware", "includes"] ∉ fs0.dirs ∧
   cwd ++ [project_name, "hardware", "includes"] ∉ fs0.files) ∧
  (cwd ++ [project_name, "hardware", "includes", "ProjectSpecific.pretty"] ∉ fs0.dirs ∧
   cwd ++ [project_name, "hardware", "includes", "ProjectSpecific.pretty"] ∉ fs0.files) ∧
  w.mkdirDenied = [] ∧
  script_dir ++ ["templates", "createproject", "DOTgitignore"] ∈ fs0.files ∧
  script_dir ++ ["templates", "createproject", "projectname.kicad_pcb"] ∈ fs0.files ∧
  script_dir ++ ["templates", "createproject", "projectname.pro"] ∈ fs0.files ∧
  script_dir ++ ["templates", "createproject", "projectname.sch"] ∈ fs0.files ∧
  script_dir ++ ["templates", "createproject", "fp-lib-table"] ∈ fs0.files ∧
  script_dir ++ ["templates", "createproject", "sym-lib-table"] ∈ fs0.files ∧
  cwd ++ [project_name, ".gitignore"] ∉ fs0.dirs ∧
  cwd ++ [project_name, "hardware", project_name ++ ".kicad_pcb"] ∉ fs0.dirs ∧
  cwd ++ [project_name, "hardware", project_name ++ ".pro"] ∉ fs0.dirs ∧
  cwd ++ [project_name, "hardware", project_name ++ ".sch"] ∉ fs0.dirs

/-- A benign environment with every git command failing: git is spawnable, but
each spawned command reports a non-zero exit status. -/
def allFailWorld : World :=
  { gitAvailable := true, cmdExit := fun _ => 1, mkdirDenied := [] }

/-- A benign environment: git spawnable, every command reporting success, no
makedirs faults. -/
def demoWorld : World :=
  { gitAvailable := true, cmdExit := fun _ => 0, mkdirDenied := [] }

/-- The six template resources the script ships, all present. -/
def demoTemplates : List FPath :=
  [["app", "templates", "createproject", "DOTgitignore"],
   ["app", "templates", "createproject", "projectname.kicad_pcb"],
   ["app", "templates", "createproject", "projectname.pro"],
   ["app", "templates", "createproject", "projectname.sch"],
   ["app", "templates", "createproject", "fp-lib-table"],
   ["app", "templates", "createproject", "sym-lib-table"]]

/-- The template resources with sym-lib-table missing from the provider. -/
def demoTemplatesNoSym : List FPath :=
  [["app", "templates", "createproject", "DOTgitignore"],
   ["app", "templates", "createproject", "projectname.kicad_pcb"],
   ["app", "templates", "createproject", "projectname.pro"],
   ["app", "templates", "createproject", "projectname.sch"],
   ["app", "templates", "createproject", "fp-lib-table"]]

theorem FS.incl_refl (a : FS) : FS.incl a a := ⟨fun _ h => h, fun _ h => h⟩

theorem FS.incl_trans {a b c : FS} (h1 : FS.incl a b) (h2 : FS.incl b c) :
    FS.incl a c :=
  ⟨fun p hp => h2.1 p (h1.1 p hp), fun p hp => h2.2 p (h1.2 p hp)⟩

theorem tame_os_makedirs (w : World) (p : FPath) : Tame (os_makedirs w p) := by
  intro s
  unfold os_makedirs
  split
  · exact ⟨rfl, FS.incl_refl _⟩
  · split
    · exact ⟨rfl, FS.incl_refl _⟩
    · exact ⟨rfl, fun q hq => List.mem_cons_of_mem _ hq, fun q hq => hq⟩

theorem tame_shutil_copy (src dst : FPath) : Tame (shutil_copy src dst) := by
  intro s
  unfold shutil_copy
  split
  · exact ⟨rfl, fun q hq => hq, fun q hq => List.mem_cons_of_mem _ hq⟩
  · exact ⟨rfl, FS.incl_refl _⟩

theorem tame_py_open_touch (p : FPath) : Tame (py_open_touch p) := by
  intro s
  unfold py_open_touch
  split
  · exact ⟨rfl, fun q hq => hq, fun q hq => List.mem_cons_of_mem _ hq⟩
  · exact ⟨rfl, FS.incl_refl _⟩

theorem tame_subprocess_run (w : World) (args : List String) :
    Tame (subprocess_run w args) := by
  intro s
  unfold subprocess_run
  split
  · exact ⟨rfl, FS.incl_refl _⟩
  · exact ⟨rfl, FS.incl_refl _⟩

theorem tame_stepSeq {a b : Step} (ha : Tame a) (hb : Tame b) :
    Tame (stepSeq a b) := by
  intro s
  unfold stepSeq
  split
  · exact ha s
  · obtain ⟨hf, hi⟩ := hb (a s).1
    obtain ⟨hf', hi'⟩ := ha s
    exact ⟨hf.trans hf', FS.incl_trans hi' hi⟩

theorem tame_stepList {l : List Step} (h : ∀ f ∈ l, Tame f) :
    Tame (stepList l) := by
  induction l with
  | nil => intro s; exact ⟨rfl, FS.incl_refl _⟩
  | cons a rest ih =>
      exact tame_stepSeq (h a (List.mem_cons_self a rest))
        (ih fun f hf => h f (List.mem_cons_of_mem a hf))

theorem tame_with_cd {p : FPath} {body : Step} (hb : Tame body) :
    Tame (with_cd p body) := by
  intro s
  unfold with_cd
  split
  · obtain ⟨hf, hi⟩ := hb { s with cwd := p }
    exact ⟨hf, hi⟩
  · exact ⟨rfl, FS.incl_refl _⟩

theorem tame_setup_dirs (c : ProjectCreator) (w : World) :
    Tame (c.setup_dirs w) := by
  intro s
  unfold ProjectCreator.setup_dirs
  split
  · exact ⟨rfl, FS.incl_refl _⟩
  · exact tame_stepSeq (tame_os_makedirs w _)
      (tame_stepSeq (tame_os_makedirs w _)
        (tame_stepSeq (tame_os_makedirs w _) (tame_os_makedirs w _))) s

theorem tame_copy_project_template (c : ProjectCreator) :
    Tame c.copy_project_template :=
  tame_stepSeq (tame_shutil_copy _ _)
    (tame_stepSeq (tame_shutil_copy _ _)
      (tame_stepSeq (tame_shutil_copy _ _)
        (tame_stepSeq (tame_shutil_copy _ _)
          (tame_stepSeq (tame_shutil_copy _ _) (tame_shutil_copy _ _)))))

theorem tame_setup_git (c : ProjectCreator) (w : World) :
    Tame (c.setup_git w) :=
  tame_stepSeq (tame_py_open_touch _)
    (tame_with_cd
      (tame_stepSeq (tame_subprocess_run w _)
        (tame_stepSeq
          (tame_stepList (by
            intro f hf
            simp only [List.mem_map] at hf
            obtain ⟨m, _, rfl⟩ := hf
            exact tame_subprocess_run w _))
          (tame_subprocess_run w _))))

theorem tame_creationBody (c : ProjectCreator) (w : World) :
    Tame (creationBody c w) :=
  tame_stepSeq (tame_setup_dirs c w)
    (tame_stepSeq (tame_copy_project_template c) (tame_setup_git c w))

theorem cwd_py_open_touch (p : FPath) (s : PState) :
    (py_open_touch p s).1.cwd = s.cwd := by
  unfold py_open_touch
  split
  · rfl
  · rfl

theorem cwd_with_cd (p : FPath) (body : Step) (s : PState) :
    (with_cd p body s).1.cwd = s.cwd := by
  unfold with_cd
  split
  · rfl
  · rfl

theorem cwd_stepSeq {a b : Step} (ha : ∀ s, (a s).1.cwd = s.cwd)
    (hb : ∀ s, (b s).1.cwd = s.cwd) (s : PState) :
    (stepSeq a b s).1.cwd = s.cwd := by
  unfold stepSeq
  split
  · exact ha s
  · exact (hb (a s).1).trans (ha s)

/-- C10: setup_git leaves the working directory of the process unchanged: the
cd context manager saves the working directory on entry and restores it in its
exit handler, which runs whether or not the body raised, so for every creator,
every environment and every starting state the working directory after
setup_git equals the one before it. -/
theorem setup_git_preserves_cwd (c : ProjectCreator) (w : World) (s : PState) :
    ((c.setup_git w) s).1.cwd = s.cwd := by
  exact cwd_stepSeq (cwd_py_open_touch _) (cwd_with_cd _ _) s

/-- C9: in every run of the with block, over every environment and every
initial filesystem, the has_started_creating_dirs attribute is still false
when the run ends — the statement on line 107 of the source reads the
attribute without assigning it — hence the deletion branch of the exit handler
never runs and the final filesystem still contains every directory and file
the initial one had. -/
theorem flag_never_set_and_nothing_removed (project_name : String)
    (cwd script_dir : FPath) (w : World) (fs0 : FS) :
    (runCreation project_name cwd script_dir w fs0).final.has_started_creating_dirs
        = false ∧
    FS.incl fs0 (runCreation project_name cwd script_dir w fs0).final.fs := by
  obtain ⟨hf, hi⟩ :=
    tame_creationBody (ProjectCreator.init project_name cwd script_dir) w
      { fs := fs0, cwd := cwd, has_started_creating_dirs := false,
        mkdirLog := [], procLog := [] }
  have hf' : (creationBody (ProjectCreator.init project_name cwd script_dir) w
      { fs := fs0, cwd := cwd, has_started_creating_dirs := false,
        mkdirLog := [], procLog := [] }).1.has_started_creating_dirs = false := hf
  unfold runCreation ProjectCreator.exitHandler
  simp only [hf', Bool.and_false, if_false, Bool.false_eq_true, ite_false]
  exact ⟨trivial, hi⟩

/-- C1: counterevidence from the code. In the run that creates project demo
with the sym-lib-table template resource missing, a step raises after
directory creation has begun, yet afterwards the filesystem still contains the
project root, the hardware directory and the partially copied files: the
scoped guard deletes nothing, because has_started_creating_dirs is still false
when the exit handler checks it, so the claimed recursive deletion of root
never happens. -/
theorem atomicity_rollback_never_fires :
    (runCreation "demo" ["home"] ["app"] demoWorld
        { dirs := [], files := demoTemplatesNoSym }).bodyErr
      = some (.fileNotFound ["app", "templates", "createproject", "sym-lib-table"]) ∧
    ["home", "demo"] ∈ (runCreation "demo" ["home"] ["app"] demoWorld
        { dirs := [], files := demoTemplatesNoSym }).final.fs.dirs ∧
    ["home", "demo", "hardware"] ∈ (runCreation "demo" ["home"] ["app"] demoWorld
        { dirs := [], files := demoTemplatesNoSym }).final.fs.dirs ∧
    ["home", "demo", ".gitignore"] ∈ (runCreation "demo" ["home"] ["app"] demoWorld
        { dirs := [], files := demoTemplatesNoSym }).final.fs.files := by
  decide

/-- C2: counterevidence from the code. In a call to setup_dirs for project
demo on a fresh filesystem the existence check passes, every directory is
created, and the call returns without raising, yet has_started_creating_dirs
is still false afterwards: line 107 of the source evaluates the attribute
without assigning to it, so the flag is never set to true. -/
theorem setup_dirs_flag_stays_false :
    ((ProjectCreator.init "demo" ["home"] ["app"]).setup_dirs demoWorld
        { fs := { dirs := [], files := demoTemplates }, cwd := ["home"],
          has_started_creating_dirs := false, mkdirLog := [], procLog := [] }).2
      = none ∧
    ((ProjectCreator.init "demo" ["home"] ["app"]).setup_dirs demoWorld
        { fs := { dirs := [], files := demoTemplates }, cwd := ["home"],
          has_started_creating_dirs := false, mkdirLog := [], procLog := [] }).1.mkdirLog
      = [["home", "demo"], ["home", "demo", "hardware"],
         ["home", "demo", "hardware", "includes"],
         ["home", "demo", "hardware", "includes", "ProjectSpecific.pretty"]] ∧
    ((ProjectCreator.init "demo" ["home"] ["app"]).setup_dirs demoWorld
        { fs := { dirs := [], files := demoTemplates }, cwd := ["home"],
          has_started_creating_dirs := false, mkdirLog := [], procLog := [] }).1.has_started_creating_dirs
      = false := by
  decide

/-- C4: counterevidence from the code. In the run that creates project part4
with the sym-lib-table template resource missing, copy_project_template raises
FileNotFoundError, but the exit handler of ProjectCreator returns True, so the
with statement suppresses the exception: the caller observes no error at all
while a half-populated tree is left on disk, contradicting the claimed
propagation. -/
theorem template_error_suppressed_at_caller :
    ((runCreation "part4" ["home"] ["app"] demoWorld
        { dirs := [], files := demoTemplatesNoSym }).bodyErr).isSome = true ∧
    (runCreation "part4" ["home"] ["app"] demoWorld
        { dirs := [], files := demoTemplatesNoSym }).surfaced = none ∧
    ["home", "part4", "hardware", "part4.kicad_pcb"]
      ∈ (runCreation "part4" ["home"] ["app"] demoWorld
          { dirs := [], files := demoTemplatesNoSym }).final.fs.files := by
  decide

/-- C5: counterevidence from the code. When the project directory demo already
exists, the creation sequence raises ProjectAlreadyExistsError internally, yet
the exit handler suppresses it and main returns normally, so the process exits
with code 0 on this uncaught failure, contradicting the claimed non-zero exit
code; the same exit code 0 is produced on full success. -/
theorem failure_exit_code_zero :
    mainExitCode "demo" ["home"] ["app"] demoWorld
        { dirs := [["home", "demo"]], files := demoTemplates } = 0 ∧
    (runCreation "demo" ["home"] ["app"] demoWorld
        { dirs := [["home", "demo"]], files := demoTemplates }).bodyErr
      = some (.projectAlreadyExists ["home", "demo"]) ∧
    mainExitCode "demo" ["home"] ["app"] demoWorld
        { dirs := [], files := demoTemplates } = 0 ∧
    (runCreation "demo" ["home"] ["app"] demoWorld
        { dirs := [], files := demoTemplates }).bodyErr = none := by
  decide

/-- C3: when the project root already exists as a directory before the call,
the creation sequence raises ProjectAlreadyExistsError from its existence
check, performs no filesystem mutation at all, and the exit handler deletes
nothing, so the pre-existing directory, and with it the result of any earlier
successful run, is left fully intact. -/
theorem existing_root_untouched (project_name : String) (cwd script_dir : FPath)
    (w : World) (fs0 : FS)
    (hex : os_path_join cwd project_name ∈ fs0.dirs) :
    (runCreation project_name cwd script_dir w fs0).bodyErr
      = some (.projectAlreadyExists (os_path_join cwd project_name)) ∧
    (runCreation project_name cwd script_dir w fs0).final.fs = fs0 ∧
    (runCreation project_name cwd script_dir w fs0).final.mkdirLog = [] ∧
    os_path_join cwd project_name
      ∈ (runCreation project_name cwd script_dir w fs0).final.fs.dirs := by
  have hex2 : cwd ++ [project_name] ∈ fs0.dirs := hex
  refine ⟨?_, ?_, ?_, ?_⟩ <;>
  simp [runCreation, creationBody, stepSeq, ProjectCreator.setup_dirs, hex2,
        ProjectCreator.exitHandler, ProjectCreator.init, os_path_join]

/-- C3 witness: a second run for the name demo, with the first result still on
disk, raises the existence conflict and leaves the filesystem exactly as it
was. -/
theorem existing_root_untouched_witness :
    (os_path_join ["home"] "demo"
        ∈ ({ dirs := [["home", "demo"]], files := demoTemplates } : FS).dirs) ∧
    ((runCreation "demo" ["home"] ["app"] demoWorld
        { dirs := [["home", "demo"]], files := demoTemplates }).bodyErr
      = some (.projectAlreadyExists (os_path_join ["home"] "demo")) ∧
    (runCreation "demo" ["home"] ["app"] demoWorld
        { dirs := [["home", "demo"]], files := demoTemplates }).final.fs
      = { dirs := [["home", "demo"]], files := demoTemplates } ∧
    (runCreation "demo" ["home"] ["app"] demoWorld
        { dirs := [["home", "demo"]], files := demoTemplates }).final.mkdirLog = [] ∧
    os_path_join ["home"] "demo"
      ∈ (runCreation "demo" ["home"] ["app"] demoWorld
          { dirs := [["home", "demo"]], files := demoTemplates }).final.fs.dirs) :=
  ⟨by decide,
   existing_root_untouched "demo" ["home"] ["app"] demoWorld
     { dirs := [["home", "demo"]], files := demoTemplates } (by decide)⟩

theorem ne_of_append_suffix_ne {b c : String} (h : ¬ b.data <:+ c.data)
    (a : String) : a ++ b ≠ c := by
  intro e
  exact h ⟨a.data, by simpa [String.data_append] using congrArg String.data e⟩

/-- C6: submodule failure isolation. For every environment in which git is
spawnable — including every pattern of failing exit statuses for the
per-entry git submodule add invocations, of which at least one fails — the
run completes with no escaping exception, every submodule of the static list
is attempted in order between git init and git add, and the whole directory
tree is still present afterwards: subprocess.run is called without a check
flag and its CompletedProcess is discarded, so a failing command cannot abort
the sequence. -/
theorem submodule_failures_tolerated (project_name : String)
    (cwd script_dir : FPath) (w : World) (fs0 : FS)
    (h : CleanRun project_name cwd script_dir w fs0)
    (hgit : w.gitAvailable = true)
    (_hfail : ∃ m ∈ git_modules, w.cmdExit (submoduleAddArgs m) ≠ 0) :
    (runCreation project_name cwd script_dir w fs0).bodyErr = none ∧
    (runCreation project_name cwd script_dir w fs0).final.procLog
      = [["git", "init"]] ++ git_modules.map submoduleAddArgs
          ++ [["git", "add", "."]] ∧
    cwd ++ [project_name]
      ∈ (runCreation project_name cwd script_dir w fs0).final.fs.dirs ∧
    cwd ++ [project_name, "hardware"]
      ∈ (runCreation project_name cwd script_dir w fs0).final.fs.dirs ∧
    cwd ++ [project_name, "hardware", "includes"]
      ∈ (runCreation project_name cwd script_dir w fs0).final.fs.dirs ∧
    cwd ++ [project_name, "hardware", "includes", "ProjectSpecific.pretty"]
      ∈ (runCreation project_name cwd script_dir w fs0).final.fs.dirs := by
  obtain ⟨⟨h1d, h1f⟩, ⟨h2d, h2f⟩, ⟨h3d, h3f⟩, ⟨h4d, h4f⟩, hden,
          ht1, ht2, ht3, ht4, ht5, ht6, hg0, hg1, hg2, hg3⟩ := h
  have hne1 : project_name ++ ".kicad_pcb" ≠ "includes" :=
    ne_of_append_suffix_ne (by decide) _
  have hne2 : project_name ++ ".pro" ≠ "includes" :=
    ne_of_append_suffix_ne (by decide) _
  have hne3 : project_name ++ ".sch" ≠ "includes" :=
    ne_of_append_suffix_ne (by decide) _
  refine ⟨?_, ?_, ?_, ?_, ?_, ?_⟩ <;>
  simp [runCreation, creationBody, ProjectCreator.exitHandler,
        ProjectCreator.setup_git, py_open_touch, with_cd, subprocess_run,
        stepList, git_modules, submoduleAddArgs, hgit,
        stepSeq, ProjectCreator.setup_dirs,
        ProjectCreator.copy_project_template, ProjectCreator.init, os_path_join,
        os_makedirs, shutil_copy, basename, hden,
        h1d, h1f, h2d, h2f, h3d, h3f, h4d, h4f, ht1, ht2, ht3, ht4, ht5, ht6,
        hg0, hg1, hg2, hg3, hne1, hne2, hne3]

/-- C6 witness: with every spawned git command failing, the run for the name
demo still completes, attempts all three submodules in order, and the tree is
present. -/
theorem submodule_failures_tolerated_witness :
    CleanRun "demo" ["home"] ["app"] allFailWorld
        { dirs := [], files := demoTemplates } ∧
    allFailWorld.gitAvailable = true ∧
    (∃ m ∈ git_modules, allFailWorld.cmdExit (submoduleAddArgs m) ≠ 0) ∧
    ((runCreation "demo" ["home"] ["app"] allFailWorld
        { dirs := [], files := demoTemplates }).bodyErr = none ∧
    (runCreation "demo" ["home"] ["app"] allFailWorld
        { dirs := [], files := demoTemplates }).final.procLog
      = [["git", "init"]] ++ git_modules.map submoduleAddArgs
          ++ [["git", "add", "."]] ∧
    ["home"] ++ ["demo"] ∈ (runCreation "demo" ["home"] ["app"] allFailWorld
        { dirs := [], files := demoTemplates }).final.fs.dirs ∧
    ["home"] ++ ["demo", "hardware"]
      ∈ (runCreation "demo" ["home"] ["app"] allFailWorld
          { dirs := [], files := demoTemplates }).final.fs.dirs ∧
    ["home"] ++ ["demo", "hardware", "includes"]
      ∈ (runCreation "demo" ["home"] ["app"] allFailWorld
          { dirs := [], files := demoTemplates }).final.fs.dirs ∧
    ["home"] ++ ["demo", "hardware", "includes", "ProjectSpecific.pretty"]
      ∈ (runCreation "demo" ["home"] ["app"] allFailWorld
          { dirs := [], files := demoTemplates }).final.fs.dirs) := by
  have hclean : CleanRun "demo" ["home"] ["app"] allFailWorld
      { dirs := [], files := demoTemplates } :=
    ⟨⟨by decide, by decide⟩, ⟨by decide, by decide⟩, ⟨by decide, by decide⟩,
     ⟨by decide, by decide⟩, rfl, by decide, by decide, by decide, by decide,
     by decide, by decide, by decide, by decide, by decide, by decide⟩
  exact ⟨hclean, rfl, by decide,
    submodule_failures_tolerated "demo" ["home"] ["app"] allFailWorld
      { dirs := [], files := demoTemplates } hclean rfl (by decide)⟩

/-- C7: template naming. For every project name, under the normal-scenario
precondition, the run through copy_project_template raises nothing and
afterwards the hardware directory holds files named from the project name
with the three design-file extensions, the two library tables under their
original names, and the project root holds the .gitignore file. -/
theorem template_naming_after_copy (project_name : String)
    (cwd script_dir : FPath) (w : World) (fs0 : FS)
    (h : CleanRun project_name cwd script_dir w fs0) :
    (runThroughTemplate project_name cwd script_dir w fs0).2 = none ∧
    cwd ++ [project_name, "hardware", project_name ++ ".kicad_pcb"]
      ∈ (runThroughTemplate project_name cwd script_dir w fs0).1.fs.files ∧
    cwd ++ [project_name, "hardware", project_name ++ ".pro"]
      ∈ (runThroughTemplate project_name cwd script_dir w fs0).1.fs.files ∧
    cwd ++ [project_name, "hardware", project_name ++ ".sch"]
      ∈ (runThroughTemplate project_name cwd script_dir w fs0).1.fs.files ∧
    cwd ++ [project_name, "hardware", "fp-lib-table"]
      ∈ (runThroughTemplate project_name cwd script_dir w fs0).1.fs.files ∧
    cwd ++ [project_name, "hardware", "sym-lib-table"]
      ∈ (runThroughTemplate project_name cwd script_dir w fs0).1.fs.files ∧
    cwd ++ [project_name, ".gitignore"]
      ∈ (runThroughTemplate project_name cwd script_dir w fs0).1.fs.files := by
  obtain ⟨⟨h1d, h1f⟩, ⟨h2d, h2f⟩, ⟨h3d, h3f⟩, ⟨h4d, h4f⟩, hden,
          ht1, ht2, ht3, ht4, ht5, ht6, hg0, hg1, hg2, hg3⟩ := h
  have hne1 : project_name ++ ".kicad_pcb" ≠ "includes" :=
    ne_of_append_suffix_ne (by decide) _
  have hne2 : project_name ++ ".pro" ≠ "includes" :=
    ne_of_append_suffix_ne (by decide) _
  have hne3 : project_name ++ ".sch" ≠ "includes" :=
    ne_of_append_suffix_ne (by decide) _
  refine ⟨?_, ?_, ?_, ?_, ?_, ?_, ?_⟩ <;>
  simp [runThroughTemplate, stepSeq, ProjectCreator.setup_dirs,
        ProjectCreator.copy_project_template, ProjectCreator.init, os_path_join,
        os_makedirs, shutil_copy, basename, hden,
        h1d, h1f, h2d, h2f, h3d, h3f, h4d, h4f, ht1, ht2, ht3, ht4, ht5, ht6,
        hg0, hg1, hg2, hg3, hne1, hne2, hne3]

/-- C7 witness: for the concrete name foo the hardware directory receives
foo.kicad_pcb, foo.pro and foo.sch, the two library tables, and the root the
.gitignore file. -/
theorem template_naming_after_copy_witness :
    CleanRun "foo" ["home"] ["app"] demoWorld
        { dirs := [], files := demoTemplates } ∧
    ((runThroughTemplate "foo" ["home"] ["app"] demoWorld
        { dirs := [], files := demoTemplates }).2 = none ∧
    ["home"] ++ ["foo", "hardware", "foo" ++ ".kicad_pcb"]
      ∈ (runThroughTemplate "foo" ["home"] ["app"] demoWorld
          { dirs := [], files := demoTemplates }).1.fs.files ∧
    ["home"] ++ ["foo", "hardware", "foo" ++ ".pro"]
      ∈ (runThroughTemplate "foo" ["home"] ["app"] demoWorld
          { dirs := [], files := demoTemplates }).1.fs.files ∧
    ["home"] ++ ["foo", "hardware", "foo" ++ ".sch"]
      ∈ (runThroughTemplate "foo" ["home"] ["app"] demoWorld
          { dirs := [], files := demoTemplates }).1.fs.files ∧
    ["home"] ++ ["foo", "hardware", "fp-lib-table"]
      ∈ (runThroughTemplate "foo" ["home"] ["app"] demoWorld
          { dirs := [], files := demoTemplates }).1.fs.files ∧
    ["home"] ++ ["foo", "hardware", "sym-lib-table"]
      ∈ (runThroughTemplate "foo" ["home"] ["app"] demoWorld
          { dirs := [], files := demoTemplates }).1.fs.files ∧
    ["home"] ++ ["foo", ".gitignore"]
      ∈ (runThroughTemplate "foo" ["home"] ["app"] demoWorld
          { dirs := [], files := demoTemplates }).1.fs.files) := by
  have hclean : CleanRun "foo" ["home"] ["app"] demoWorld
      { dirs := [], files := demoTemplates } :=
    ⟨⟨by decide, by decide⟩, ⟨by decide, by decide⟩, ⟨by decide, by decide⟩,
     ⟨by decide, by decide⟩, rfl, by decide, by decide, by decide, by decide,
     by decide, by decide, by decide, by decide, by decide, by decide⟩
  exact ⟨hclean,
    template_naming_after_copy "foo" ["home"] ["app"] demoWorld
      { dirs := [], files := demoTemplates } hclean⟩

/-- C8: layout and creation order. For every project name the planned paths
are root equal to the current directory joined with the name, hardware under
root, includes under hardware, and ProjectSpecific.pretty under includes, the
three planned directories all strictly nested under root; and a successful
setup_dirs creates root, hardware, includes and ProjectSpecific.pretty in
exactly that order, each the parent directory of the next. -/
theorem layout_nesting_and_creation_order (project_name : String)
    (cwd script_dir : FPath) (w : World) (fs0 : FS) (c : ProjectCreator)
    (hc : c = ProjectCreator.init project_name cwd script_dir)
    (h : CleanRun project_name cwd script_dir w fs0) :
    c.project_path = os_path_join cwd project_name ∧
    c.hardware_path = os_path_join c.project_path "hardware" ∧
    c.include_path = os_path_join c.hardware_path "includes" ∧
    c.project_specific_path = os_path_join c.include_path "ProjectSpecific.pretty" ∧
    (c.project_path <+: c.hardware_path ∧ c.hardware_path ≠ c.project_path) ∧
    (c.project_path <+: c.include_path ∧ c.include_path ≠ c.project_path) ∧
    (c.project_path <+: c.project_specific_path ∧
      c.project_specific_path ≠ c.project_path) ∧
    (c.setup_dirs w
        { fs := fs0, cwd := cwd, has_started_creating_dirs := false,
          mkdirLog := [], procLog := [] }).1.mkdirLog
      = [c.project_path, c.hardware_path, c.include_path,
         c.project_specific_path] := by
  subst hc
  obtain ⟨⟨h1d, h1f⟩, ⟨h2d, h2f⟩, ⟨h3d, h3f⟩, ⟨h4d, h4f⟩, hden, _⟩ := h
  refine ⟨?_, ?_, ?_, ?_, ⟨?_, ?_⟩, ⟨?_, ?_⟩, ⟨?_, ?_⟩, ?_⟩ <;>
  simp [ProjectCreator.init, os_path_join, ProjectCreator.setup_dirs,
        os_makedirs, stepSeq, hden, h1d, h1f, h2d, h2f, h3d, h3f, h4d, h4f]

/-- C8 witness: the layout and the creation order at the concrete name demo on
a fresh filesystem. -/
theorem layout_nesting_and_creation_order_witness :
    (ProjectCreator.init "demo" ["home"] ["app"]
        = ProjectCreator.init "demo" ["home"] ["app"]) ∧
    CleanRun "demo" ["home"] ["app"] demoWorld
        { dirs := [], files := demoTemplates } ∧
    ((ProjectCreator.init "demo" ["home"] ["app"]).project_path
        = os_path_join ["home"] "demo" ∧
    (ProjectCreator.init "demo" ["home"] ["app"]).hardware_path
        = os_path_join (ProjectCreator.init "demo" ["home"] ["app"]).project_path
            "hardware" ∧
    (ProjectCreator.init "demo" ["home"] ["app"]).include_path
        = os_path_join (ProjectCreator.init "demo" ["home"] ["app"]).hardware_path
            "includes" ∧
    (ProjectCreator.init "demo" ["home"] ["app"]).project_specific_path
        = os_path_join (ProjectCreator.init "demo" ["home"] ["app"]).include_path
            "ProjectSpecific.pretty" ∧
    ((ProjectCreator.init "demo" ["home"] ["app"]).project_path
        <+: (ProjectCreator.init "demo" ["home"] ["app"]).hardware_path ∧
      (ProjectCreator.init "demo" ["home"] ["app"]).hardware_path
        ≠ (ProjectCreator.init "demo" ["home"] ["app"]).project_path) ∧
    ((ProjectCreator.init "demo" ["home"] ["app"]).project_path
        <+: (ProjectCreator.init "demo" ["home"] ["app"]).include_path ∧
      (ProjectCreator.init "demo" ["home"] ["app"]).include_path
        ≠ (ProjectCreator.init "demo" ["home"] ["app"]).project_path) ∧
    ((ProjectCreator.init "demo" ["home"] ["app"]).project_path
        <+: (ProjectCreator.init "demo" ["home"] ["app"]).project_specific_path ∧
      (ProjectCreator.init "demo" ["home"] ["app"]).project_specific_path
        ≠ (ProjectCreator.init "demo" ["home"] ["app"]).project_path) ∧
    ((ProjectCreator.init "demo" ["home"] ["app"]).setup_dirs demoWorld
        { fs := { dirs := [], files := demoTemplates }, cwd := ["home"],
          has_started_creating_dirs := false,
          mkdirLog := [], procLog := [] }).1.mkdirLog
      = [(ProjectCreator.init "demo" ["home"] ["app"]).project_path,
         (ProjectCreator.init "demo" ["home"] ["app"]).hardware_path,
         (ProjectCreator.init "demo" ["home"] ["app"]).include_path,
         (ProjectCreator.init "demo" ["home"] ["app"]).project_specific_path]) := by
  have hclean : CleanRun "demo" ["home"] ["app"] demoWorld
      { dirs := [], files := demoTemplates } :=
    ⟨⟨by decide, by decide⟩, ⟨by decide, by decide⟩, ⟨by decide, by decide⟩,
     ⟨by decide, by decide⟩, rfl, by decide, by decide, by decide, by decide,
     by decide, by decide, by decide, by decide, by decide, by decide⟩
  exact ⟨rfl, hclean,
    layout_nesting_and_creation_order "demo" ["home"] ["app"] demoWorld
      { dirs := [], files := demoTemplates }
      (ProjectCreator.init "demo" ["home"] ["app"]) rfl hclean⟩
